import Mathlib

/-!
Verification development for the SpessaSynth volume envelope
(worklet_utilities/volume_envelope.js) and the worklet sequencer's seek
replay (_playTo / setTimeTicks, concatenated in the same source file).

The per-voice envelope arithmetic is done on JavaScript numbers; it is
modelled here over the reals.  The sequencer's controller bookkeeping is
integer valued and is modelled executably.  Functions that the repository
imports from files absent from the sources (unit_converter.js,
generators.js, midi_message.js, and the sequencer/synth methods used by
_playTo) are modelled from the spec; each such definition carries a doc
comment saying so.
-/

namespace SpessaSynth

/-- Modelled from the spec: unit_converter.js is not among the sources.
SoundFont timecents to seconds, 2^(tc/1200), with the -32768 sentinel
mapping to 0 (spec 4.1). -/
noncomputable def timecentsToSeconds (tc : Real) : Real :=
  if tc = -32768 then 0 else (2 : Real) ^ (tc / 1200)

/-- Modelled from the spec: unit_converter.js is not among the sources.
Decibels of attenuation to linear gain, 10^(-dB/20) (spec 4.1). -/
noncomputable def decibelAttenuationToGain (db : Real) : Real :=
  (10 : Real) ^ (-db / 20)

/-- Source constant: 100 dB of attenuation counts as silence. -/
def DB_SILENCE : Real := 100

/-- Source constant: 96 dB of attenuation counts as perceived silence. -/
def PERCEIVED_DB_SILENCE : Real := 96

/-- Source constant. -/
def VOLUME_ENVELOPE_SMOOTHING_FACTOR : Real := 0.001

namespace generatorTypes

/-- Modelled from the spec: generators.js is not among the sources; the
generator ids follow the SoundFont 2.04 specification (spec 6). -/
def delayVolEnv : Nat := 33

def attackVolEnv : Nat := 34

def holdVolEnv : Nat := 35

def decayVolEnv : Nat := 36

def sustainVolEnv : Nat := 37

def releaseVolEnv : Nat := 38

def keyNumToVolEnvHold : Nat := 39

def keyNumToVolEnvDecay : Nat := 40

def initialAttenuation : Nat := 48

end generatorTypes

/-- The mutable fields of the WorkletVolumeEnvelope class.  All JavaScript
numbers are modelled as reals; `state` is 0 delay, 1 attack, 2 hold,
3 decay, 4 sustain, release being the orthogonal `isInRelease` flag of the
voice. -/
structure WorkletVolumeEnvelope where
  sampleRate : Real
  currentSampleTime : Real
  currentAttenuationDb : Real
  state : Nat
  releaseStartDb : Real
  releaseStartTimeSamples : Real
  currentReleaseGain : Real
  attackDuration : Real
  decayDuration : Real
  releaseDuration : Real
  attenuation : Real
  sustainDb : Real
  delayEnd : Real
  attackEnd : Real
  holdEnd : Real
  decayEnd : Real

/-- The fields of the WorkletVoice that volume_envelope.js touches.  The
modulated generator vector is modelled as a function from generator id to
its (real-valued) amount. -/
structure WorkletVoice where
  volumeEnvelope : WorkletVolumeEnvelope
  modulatedGenerators : Nat → Real
  targetKey : Real
  isInRelease : Bool
  finished : Bool

/-- The closure `timecentsToSamples` defined inside recalculate:
`Math.floor(timecentsToSeconds(tc) * env.sampleRate)`. -/
noncomputable def WorkletVolumeEnvelope.timecentsToSamples
    (env : WorkletVolumeEnvelope) (tc : Real) : Real :=
  ((Int.floor (timecentsToSeconds tc * env.sampleRate) : Int) : Real)

/-- WorkletVolumeEnvelope.recalculate, straight from the source: recomputes
attenuation, sustainDb, the stage durations and end times, and, when the
voice is already in release, the releaseStartDb for the stage the envelope
was in. -/
noncomputable def WorkletVolumeEnvelope.recalculate (voice : WorkletVoice) :
    WorkletVolumeEnvelope :=
  let env0 := voice.volumeEnvelope
  let attenuation := voice.modulatedGenerators generatorTypes.initialAttenuation / 10
  let sustainDb := attenuation + voice.modulatedGenerators generatorTypes.sustainVolEnv / 10
  let attackDuration := env0.timecentsToSamples (voice.modulatedGenerators generatorTypes.attackVolEnv)
  let fullChange := voice.modulatedGenerators generatorTypes.decayVolEnv
  let keyNumAddition := (60 - voice.targetKey) * voice.modulatedGenerators generatorTypes.keyNumToVolEnvDecay
  let fraction := (sustainDb - attenuation) / (100 - attenuation)
  let decayDuration := env0.timecentsToSamples (fullChange + keyNumAddition) * fraction
  let releaseDuration := env0.timecentsToSamples (voice.modulatedGenerators generatorTypes.releaseVolEnv)
  let delayEnd := env0.timecentsToSamples (voice.modulatedGenerators generatorTypes.delayVolEnv)
  let attackEnd := attackDuration + delayEnd
  let holdExcursion := (60 - voice.targetKey) * voice.modulatedGenerators generatorTypes.keyNumToVolEnvHold
  let holdEnd := env0.timecentsToSamples (voice.modulatedGenerators generatorTypes.holdVolEnv + holdExcursion) + attackEnd
  let decayEnd := decayDuration + holdEnd
  let env :=
    { env0 with
      attenuation := attenuation
      sustainDb := sustainDb
      attackDuration := attackDuration
      decayDuration := decayDuration
      releaseDuration := releaseDuration
      delayEnd := delayEnd
      attackEnd := attackEnd
      holdEnd := holdEnd
      decayEnd := decayEnd }
  if voice.isInRelease then
    { env with
      releaseStartDb :=
        if env.state = 0 then DB_SILENCE
        else if env.state = 1 then
          let elapsed := 1 - (env.attackEnd - env.releaseStartTimeSamples) / env.attackDuration
          let attackGain := elapsed * decibelAttenuationToGain env.attenuation
          20 * Real.logb 10 attackGain * (-1)
        else if env.state = 2 then env.attenuation
        else if env.state = 3 then
          (1 - (env.decayEnd - env.releaseStartTimeSamples) / env.decayDuration)
            * (env.sustainDb - env.attenuation) + env.attenuation
        else if env.state = 4 then env.sustainDb
        else env.currentAttenuationDb }
  else env

/-- WorkletVolumeEnvelope.startRelease from the source. -/
noncomputable def WorkletVolumeEnvelope.startRelease (voice : WorkletVoice) :
    WorkletVoice :=
  let env := voice.volumeEnvelope
  let v1 :=
    { voice with
      volumeEnvelope :=
        { env with
          releaseStartTimeSamples := env.currentSampleTime
          currentReleaseGain := decibelAttenuationToGain env.currentAttenuationDb } }
  { v1 with volumeEnvelope := WorkletVolumeEnvelope.recalculate v1 }

/-- WorkletVolumeEnvelope.getInterpolatedGain: low-pass smooths
currentAttenuationDb toward the target and returns the resulting gain. -/
noncomputable def WorkletVolumeEnvelope.getInterpolatedGain
    (env : WorkletVolumeEnvelope) (attenuationDb smoothingFactor : Real) :
    WorkletVolumeEnvelope × Real :=
  let newDb := env.currentAttenuationDb + (attenuationDb - env.currentAttenuationDb) * smoothingFactor
  ({ env with currentAttenuationDb := newDb }, decibelAttenuationToGain newDb)

/-- Sustain stage of WorkletVolumeEnvelope.apply (case 4): stay at
sustainDb.  One loop iteration runs even when the buffer is already full
(the JavaScript write past the end of the Float32Array is dropped), and
the loop returns right after filling the last cell. -/
noncomputable def WorkletVolumeEnvelope.applySustain
    (env : WorkletVolumeEnvelope) (decibelOffset smoothingFactor : Real) :
    List Real → WorkletVolumeEnvelope × List Real
  | [] =>
    let p := env.getInterpolatedGain (env.sustainDb + decibelOffset) smoothingFactor
    ({ p.1 with currentSampleTime := p.1.currentSampleTime + 1 }, [])
  | x :: rest =>
    let p := env.getInterpolatedGain (env.sustainDb + decibelOffset) smoothingFactor
    let env1 := { p.1 with currentSampleTime := p.1.currentSampleTime + 1 }
    if rest.isEmpty then (env1, [x * p.2])
    else
      let q := WorkletVolumeEnvelope.applySustain env1 decibelOffset smoothingFactor rest
      (q.1, x * p.2 :: q.2)

/-- Decay stage of WorkletVolumeEnvelope.apply (case 3): the loop condition
is `env.currentSampleTime++ < env.decayEnd`, so the clock is bumped once by
the post-increment in the condition and once more in the body. -/
noncomputable def WorkletVolumeEnvelope.applyDecay
    (env : WorkletVolumeEnvelope) (decibelOffset smoothingFactor : Real)
    (buf : List Real) : WorkletVolumeEnvelope × List Real :=
  if env.currentSampleTime < env.decayEnd then
    let tPost := env.currentSampleTime + 1
    let dbDifference := env.sustainDb - env.attenuation
    let newAttenuation :=
      (1 - (env.decayEnd - tPost) / env.decayDuration) * dbDifference + env.attenuation
    match buf with
    | [] =>
      let p := WorkletVolumeEnvelope.getInterpolatedGain
        { env with currentSampleTime := tPost } (newAttenuation + decibelOffset) smoothingFactor
      ({ p.1 with currentSampleTime := tPost + 1 }, [])
    | x :: rest =>
      let p := WorkletVolumeEnvelope.getInterpolatedGain
        { env with currentSampleTime := tPost } (newAttenuation + decibelOffset) smoothingFactor
      let env1 := { p.1 with currentSampleTime := tPost + 1 }
      if rest.isEmpty then (env1, [x * p.2])
      else
        let q := WorkletVolumeEnvelope.applyDecay env1 decibelOffset smoothingFactor rest
        (q.1, x * p.2 :: q.2)
  else
    WorkletVolumeEnvelope.applySustain
      { env with state := 4, currentSampleTime := env.currentSampleTime + 1 }
      decibelOffset smoothingFactor buf
termination_by buf.length
decreasing_by
  simp_all

/-- Hold stage of WorkletVolumeEnvelope.apply (case 2): stay at the peak
attenuation, falling through to decay when holdEnd is reached. -/
noncomputable def WorkletVolumeEnvelope.applyHold
    (env : WorkletVolumeEnvelope) (decibelOffset smoothingFactor : Real)
    (buf : List Real) : WorkletVolumeEnvelope × List Real :=
  if env.currentSampleTime < env.holdEnd then
    match buf with
    | [] =>
      let p := env.getInterpolatedGain (env.attenuation + decibelOffset) smoothingFactor
      ({ p.1 with currentSampleTime := p.1.currentSampleTime + 1 }, [])
    | x :: rest =>
      let p := env.getInterpolatedGain (env.attenuation + decibelOffset) smoothingFactor
      let env1 := { p.1 with currentSampleTime := p.1.currentSampleTime + 1 }
      if rest.isEmpty then (env1, [x * p.2])
      else
        let q := WorkletVolumeEnvelope.applyHold env1 decibelOffset smoothingFactor rest
        (q.1, x * p.2 :: q.2)
  else
    WorkletVolumeEnvelope.applyDecay { env with state := 3 } decibelOffset smoothingFactor buf
termination_by buf.length
decreasing_by
  simp_all

/-- Attack stage of WorkletVolumeEnvelope.apply (case 1): linear gain ramp
from 0 to the peak gain, falling through to hold at attackEnd. -/
noncomputable def WorkletVolumeEnvelope.applyAttack
    (env : WorkletVolumeEnvelope) (decibelOffset smoothingFactor : Real)
    (buf : List Real) : WorkletVolumeEnvelope × List Real :=
  if env.currentSampleTime < env.attackEnd then
    let linearAttenuation := 1 - (env.attackEnd - env.currentSampleTime) / env.attackDuration
    let factor := linearAttenuation * decibelAttenuationToGain (env.attenuation + decibelOffset)
    match buf with
    | [] =>
      ({ env with
          currentAttenuationDb := env.attenuation
          currentSampleTime := env.currentSampleTime + 1 }, [])
    | x :: rest =>
      let env1 :=
        { env with
          currentAttenuationDb := env.attenuation
          currentSampleTime := env.currentSampleTime + 1 }
      if rest.isEmpty then (env1, [x * factor])
      else
        let q := WorkletVolumeEnvelope.applyAttack env1 decibelOffset smoothingFactor rest
        (q.1, x * factor :: q.2)
  else
    WorkletVolumeEnvelope.applyHold { env with state := 2 } decibelOffset smoothingFactor buf
termination_by buf.length
decreasing_by
  simp_all

/-- Delay stage of WorkletVolumeEnvelope.apply (case 0): no sound, the
output cell is overwritten with 0, falling through to attack at delayEnd. -/
noncomputable def WorkletVolumeEnvelope.applyDelay
    (env : WorkletVolumeEnvelope) (decibelOffset smoothingFactor : Real)
    (buf : List Real) : WorkletVolumeEnvelope × List Real :=
  if env.currentSampleTime < env.delayEnd then
    match buf with
    | [] =>
      ({ env with
          currentAttenuationDb := DB_SILENCE
          currentSampleTime := env.currentSampleTime + 1 }, [])
    | _ :: rest =>
      let env1 :=
        { env with
          currentAttenuationDb := DB_SILENCE
          currentSampleTime := env.currentSampleTime + 1 }
      if rest.isEmpty then (env1, [0])
      else
        let q := WorkletVolumeEnvelope.applyDelay env1 decibelOffset smoothingFactor rest
        (q.1, (0 : Real) :: q.2)
  else
    WorkletVolumeEnvelope.applyAttack { env with state := 1 } decibelOffset smoothingFactor buf
termination_by buf.length
decreasing_by
  simp_all

/-- The switch of WorkletVolumeEnvelope.apply: each case falls through to
the next stage; a state outside 0..4 matches no case, so the buffer is left
untouched. -/
noncomputable def WorkletVolumeEnvelope.applyStages
    (env : WorkletVolumeEnvelope) (decibelOffset smoothingFactor : Real)
    (buf : List Real) : WorkletVolumeEnvelope × List Real :=
  match env.state with
  | 0 => env.applyDelay decibelOffset smoothingFactor buf
  | 1 => env.applyAttack decibelOffset smoothingFactor buf
  | 2 => env.applyHold decibelOffset smoothingFactor buf
  | 3 => env.applyDecay decibelOffset smoothingFactor buf
  | 4 => env.applySustain decibelOffset smoothingFactor buf
  | _ => (env, buf)

/-- The release loop of WorkletVolumeEnvelope.apply: the local `db` is
threaded through (initially 0) and the value it holds after the loop is
what the perceived-silence test reads. -/
noncomputable def WorkletVolumeEnvelope.applyReleaseLoop
    (env : WorkletVolumeEnvelope)
    (decibelOffset releaseSmoothingFactor dbDifference elapsedRelease db : Real) :
    List Real → WorkletVolumeEnvelope × Real × List Real
  | [] => (env, db, [])
  | x :: rest =>
    let db1 := elapsedRelease / env.releaseDuration * dbDifference + env.releaseStartDb
    let gain := decibelAttenuationToGain (db1 + decibelOffset)
    let g1 := env.currentReleaseGain + (gain - env.currentReleaseGain) * releaseSmoothingFactor
    let env1 :=
      { env with
        currentReleaseGain := g1
        currentSampleTime := env.currentSampleTime + 1 }
    let q := WorkletVolumeEnvelope.applyReleaseLoop env1 decibelOffset
      releaseSmoothingFactor dbDifference (elapsedRelease + 1) db1 rest
    (q.1, q.2.1, x * g1 :: q.2.2)

/-- WorkletVolumeEnvelope.apply: release branch first (with the tenfold
smoothing factor and the finished test), otherwise the staged switch. -/
noncomputable def WorkletVolumeEnvelope.apply (voice : WorkletVoice)
    (audioBuffer : List Real) (centibelOffset smoothingFactor : Real) :
    WorkletVoice × List Real :=
  let env := voice.volumeEnvelope
  let decibelOffset := centibelOffset / 10
  if voice.isInRelease then
    let releaseSmoothingFactor := smoothingFactor * 10
    let elapsedRelease := env.currentSampleTime - env.releaseStartTimeSamples
    let dbDifference := DB_SILENCE - env.releaseStartDb
    let q := WorkletVolumeEnvelope.applyReleaseLoop env decibelOffset
      releaseSmoothingFactor dbDifference elapsedRelease 0 audioBuffer
    let voice1 := { voice with volumeEnvelope := q.1 }
    (if q.2.1 ≥ PERCEIVED_DB_SILENCE then { voice1 with finished := true } else voice1,
      q.2.2)
  else
    let q := env.applyStages decibelOffset smoothingFactor audioBuffer
    ({ voice with volumeEnvelope := q.1 }, q.2)

/-- Modelled from the spec: the synth core removes finished voices after
each rendered block (spec 4.6 step 3), so a voice marked finished is not in
the voice list of the next block. -/
def removeFinishedVoices (voices : List WorkletVoice) : List WorkletVoice :=
  voices.filter (fun v => !v.finished)

/-- Smoothing iteration used only to state the envelope claims: the
sequence of currentAttenuationDb values produced by repeatedly low-pass
smoothing toward the per-sample target `target i`. -/
noncomputable def envTargetIter (c0 : Real) (target : Nat → Real) (sf : Real) :
    Nat → Real
  | 0 => c0
  | n + 1 => envTargetIter c0 target sf n + (target n - envTargetIter c0 target sf n) * sf


/-! ## The worklet sequencer's seek replay (_playTo) -/

namespace midiControllers

/-- Modelled from the spec: midi_message.js is not among the sources; these
are the standard MIDI 1.0 controller numbers the sequencer refers to
(spec 6: standard MIDI 1.0 byte stream). -/
def bankSelect : Nat := 0

def dataEntryMsb : Nat := 6

def mainVolume : Nat := 7

def pan : Nat := 10

def expressionController : Nat := 11

def lsbForControl0BankSelect : Nat := 32

def lsbForControl6DataEntry : Nat := 38

def releaseTime : Nat := 72

def brightness : Nat := 74

def effects1Depth : Nat := 91

def dataIncrement : Nat := 96

def dataDecrement : Nat := 97

def NRPNLsb : Nat := 98

def NRPNMsb : Nat := 99

def RPNLsb : Nat := 100

def RPNMsb : Nat := 101

def resetAllControllers : Nat := 121

end midiControllers

namespace messageTypes

/-- Modelled from the spec: midi_message.js is not among the sources; the
status nibbles of the channel voice messages are the standard MIDI 1.0
ones, meta events keep their meta type as status. -/
def noteOff : Nat := 0x80

def noteOn : Nat := 0x90

def controllerChange : Nat := 0xB0

def programChange : Nat := 0xC0

def pitchBend : Nat := 0xE0

def midiPort : Nat := 0x21

def reset : Nat := 0xFF

end messageTypes

/-- The sequencer's preset default controller values, from the source:
`new Int16Array(127)` (127 entries, indices 0 to 126) with six named
controllers set. -/
def defaultControllerArray : List Int :=
  ((((((List.replicate 127 (0 : Int)).set midiControllers.mainVolume 100).set
    midiControllers.expressionController 127).set midiControllers.pan 64).set
    midiControllers.releaseTime 64).set midiControllers.brightness 64).set
    midiControllers.effects1Depth 40

/-- The status/channel pair returned by getEvent. -/
structure MidiEventInfo where
  status : Nat
  channel : Nat
deriving DecidableEq

/-- Modelled from the spec: midi_message.js getEvent is not among the
sources.  A channel voice status byte (0x80..0xEF) splits into its status
nibble and channel; any other byte (meta types, system messages) is
returned unchanged with channel 0. -/
def getEvent (statusByte : Nat) : MidiEventInfo :=
  if 0x80 ≤ statusByte ∧ statusByte ≤ 0xEF then
    { status := statusByte / 16 * 16, channel := statusByte % 16 }
  else
    { status := statusByte, channel := 0 }

/-- The controller filter of the _playTo controllerChange case, kept
verbatim from the source: note that `dataDecrement` is tested twice and
`dataIncrement` is never tested. -/
def playToImmediateControllerCheck (controllerNumber : Nat) : Bool :=
  (controllerNumber == midiControllers.dataDecrement) ||
  (controllerNumber == midiControllers.dataEntryMsb) ||
  (controllerNumber == midiControllers.dataDecrement) ||
  (controllerNumber == midiControllers.lsbForControl6DataEntry) ||
  (controllerNumber == midiControllers.RPNLsb) ||
  (controllerNumber == midiControllers.RPNMsb) ||
  (controllerNumber == midiControllers.NRPNLsb) ||
  (controllerNumber == midiControllers.NRPNMsb) ||
  (controllerNumber == midiControllers.bankSelect) ||
  (controllerNumber == midiControllers.lsbForControl0BankSelect) ||
  (controllerNumber == midiControllers.resetAllControllers)

/-- Modelled from the spec: the per-channel MIDI state a consumer of the
sequencer's messages keeps (spec 3, 4.5): a 128-entry controller table, the
14-bit pitch wheel, and the program number. -/
structure ChannelState where
  controllers : List Int
  pitchWheel : Nat
  program : Nat
deriving DecidableEq

/-- Modelled from the spec: the default controller values of a channel
(spec 3): main volume 100, expression 127, pan 64, release time 64,
brightness 64, effects1Depth 40, all other controllers 0. -/
def synthDefaultControllers : List Int :=
  ((((((List.replicate 128 (0 : Int)).set midiControllers.mainVolume 100).set
    midiControllers.expressionController 127).set midiControllers.pan 64).set
    midiControllers.releaseTime 64).set midiControllers.brightness 64).set
    midiControllers.effects1Depth 40

/-- Modelled from the spec: the power-on state of a channel (spec 4.5),
pitch wheel centered at 8192. -/
def initialChannelState : ChannelState :=
  { controllers := synthDefaultControllers, pitchWheel := 8192, program := 0 }

/-- Update channel `i` of a channel list, leaving the list unchanged when
the index is out of range. -/
def setChannelAt (chs : List ChannelState) (i : Nat)
    (f : ChannelState → ChannelState) : List ChannelState :=
  match chs.get? i with
  | some c => chs.set i (f c)
  | none => chs

/-- Modelled from the spec: a controller change writes the controller
value; resetAllControllers restores the channel defaults (spec 4.5). -/
def channelControllerChange (c : ChannelState) (controllerNumber : Nat)
    (value : Int) : ChannelState :=
  if controllerNumber = midiControllers.resetAllControllers then
    { c with controllers := synthDefaultControllers, pitchWheel := 8192 }
  else
    { c with controllers := c.controllers.set controllerNumber value }

/-- Modelled from the spec: synth.controllerChange dispatches to the
channel (spec 4.5). -/
def synthControllerChange (chs : List ChannelState) (ch controllerNumber : Nat)
    (value : Int) : List ChannelState :=
  setChannelAt chs ch (fun c => channelControllerChange c controllerNumber value)

/-- Modelled from the spec: synth.pitchWheel(channel, MSB, LSB) recombines
the two data bytes into the 14-bit value (spec 8 round-trip law). -/
def synthPitchWheel (chs : List ChannelState) (ch msb lsb : Nat) :
    List ChannelState :=
  setChannelAt chs ch (fun c => { c with pitchWheel := msb <<< 7 ||| lsb })

/-- One event of a parsed MIDI track as the worklet sequencer stores it. -/
structure SeqEvent where
  ticks : Nat
  messageStatusByte : Nat
  messageData : List Nat
deriving DecidableEq

/-- A message the sequencer hands to its consumer: the passthrough sink
(raw MIDI bytes, here kept as a tagged message) or the synth method calls.
The pitch bend message carries the two bytes in the order the source emits
them: value AND 0x7F first, value SHR 7 second. -/
inductive SeqOutMessage where
  | resetMsg : SeqOutMessage
  | ccMsg : Nat → Nat → Int → SeqOutMessage
  | pitchBendMsg : Nat → Nat → Nat → SeqOutMessage
  | rawMsg : SeqEvent → SeqOutMessage
deriving DecidableEq

/-- Modelled from the spec: how the external MIDI sink of passthrough mode
updates its channel state on each message it receives (spec 4.5, 4.7);
note messages and unknown messages leave the controller state alone. -/
def applyOutMessage (sink : List ChannelState) (m : SeqOutMessage) :
    List ChannelState :=
  match m with
  | SeqOutMessage.resetMsg => sink.map (fun _ => initialChannelState)
  | SeqOutMessage.ccMsg ch controllerNumber value =>
    synthControllerChange sink ch controllerNumber value
  | SeqOutMessage.pitchBendMsg ch lsb msb =>
    setChannelAt sink ch (fun c => { c with pitchWheel := msb <<< 7 ||| lsb })
  | SeqOutMessage.rawMsg ev =>
    let info := getEvent ev.messageStatusByte
    if info.status = messageTypes.controllerChange then
      synthControllerChange sink info.channel (ev.messageData.getD 0 0)
        ((ev.messageData.getD 1 0 : Nat) : Int)
    else if info.status = messageTypes.pitchBend then
      setChannelAt sink info.channel (fun c =>
        { c with pitchWheel := ev.messageData.getD 1 0 <<< 7 ||| ev.messageData.getD 0 0 })
    else if info.status = messageTypes.programChange then
      setChannelAt sink info.channel (fun c => { c with program := ev.messageData.getD 0 0 })
    else sink

/-- The sequencer state _playTo works on.  `messages` accumulates what is
sent to the passthrough sink; `synthChannels` models the synth's channels
in direct mode. -/
structure WorkletSequencerState where
  tracks : List (List SeqEvent)
  eventIndex : List Nat
  midiPorts : List Nat
  midiPortChannelOffsets : List Nat
  sendMIDIMessages : Bool
  synthChannels : List ChannelState
  playedTime : Rat
  oneTickToSeconds : Rat
  timeDivision : Nat
  messages : List SeqOutMessage

/-- The next unprocessed event of track `i`. -/
def nextEventOf (s : WorkletSequencerState) (i : Nat) : Option SeqEvent :=
  (s.tracks.getD i []).get? (s.eventIndex.getD i 0)

/-- Modelled from the spec: _findFirstEventIndex is not among the sources;
it returns the index of the track whose next unprocessed event has the
smallest tick (the sequencer walks events in absolute tick order,
spec 4.7). -/
def findFirstEventIndex (s : WorkletSequencerState) : Nat :=
  (List.range s.tracks.length).foldl
    (fun best i =>
      match nextEventOf s i with
      | none => best
      | some e =>
        match nextEventOf s best with
        | none => i
        | some eb => if e.ticks < eb.ticks then i else best)
    0

/-- `this.midiPortChannelOffsets[this.midiPorts[trackIndex]] || 0`. -/
def portOffsetFor (s : WorkletSequencerState) (ti : Nat) : Nat :=
  s.midiPortChannelOffsets.getD (s.midiPorts.getD ti 0) 0

/-- Modelled from the spec: _processEvent is not among the sources.  In
passthrough mode it forwards the raw event to the external sink (spec 4.7);
in direct mode it dispatches the event to the synth's port-mapped channel
(spec 4.5), and a midiPort meta event records the port for its track
(spec 4.7: MIDI-port mapping); note messages spawn or release voices,
which are outside this controller-state model. -/
def processEvent (s : WorkletSequencerState) (ti : Nat) (ev : SeqEvent) :
    WorkletSequencerState :=
  let info := getEvent ev.messageStatusByte
  if info.status = messageTypes.midiPort then
    { s with midiPorts := s.midiPorts.set ti (ev.messageData.getD 0 0) }
  else if s.sendMIDIMessages then
    { s with messages := s.messages ++ [SeqOutMessage.rawMsg ev] }
  else
    let ch := info.channel + portOffsetFor s ti
    if info.status = messageTypes.controllerChange then
      { s with synthChannels := (synthControllerChange s.synthChannels ch
          (ev.messageData.getD 0 0) ((ev.messageData.getD 1 0 : Nat) : Int)) }
    else if info.status = messageTypes.pitchBend then
      { s with synthChannels := setChannelAt s.synthChannels ch (fun c =>
          { c with pitchWheel := ev.messageData.getD 1 0 <<< 7 ||| ev.messageData.getD 0 0 }) }
    else if info.status = messageTypes.programChange then
      { s with synthChannels := setChannelAt s.synthChannels ch (fun c =>
          { c with program := ev.messageData.getD 0 0 }) }
    else s

/-- `savedControllers[channel][controllerNumber] = value`, creating the
channel's copy of the defaults when the channel had none yet, as in the
source; a JavaScript array write past the end grows the array. -/
def setSavedController (saved : List (Option (List Int))) (channel controllerNumber : Nat)
    (value : Int) : List (Option (List Int)) :=
  let saved1 :=
    if channel < saved.length then saved
    else saved ++ List.replicate (channel + 1 - saved.length) none
  let base :=
    match saved1.getD channel none with
    | some l => l
    | none => defaultControllerArray
  let row :=
    if controllerNumber < base.length then base.set controllerNumber value
    else base ++ List.replicate (controllerNumber - base.length) 0 ++ [value]
  saved1.set channel (some row)

/-- The midiPort case grows the saved-controller table to the synth's
channel count, pushing copies of the defaults. -/
def growSavedControllers (saved : List (Option (List Int))) (n : Nat) :
    List (Option (List Int)) :=
  if saved.length < n then
    saved ++ List.replicate (n - saved.length) (some defaultControllerArray)
  else saved

/-- The event loop of _playTo: find the earliest event, stop at the target
tick (or time), skip note messages, remember pitch bends, forward the
data-entry family of controllers at once while deferring the rest into the
saved-controller table, process everything else, then advance the cursor
and the played time.  The Boolean result is the source's return value
(false when the file ran out).  Fuel is the number of remaining events,
which strictly decreases. -/
def playToLoop (fuel : Nat) (s : WorkletSequencerState) (pitchBends : List Nat)
    (saved : List (Option (List Int))) (time : Rat) (ticks : Option Nat) :
    WorkletSequencerState × List Nat × List (Option (List Int)) × Bool :=
  match fuel with
  | 0 => (s, pitchBends, saved, false)
  | fuel + 1 =>
    let ti := findFirstEventIndex s
    match nextEventOf s ti with
    | none => (s, pitchBends, saved, false)
    | some event =>
      let brk : Bool :=
        match ticks with
        | some t => decide (event.ticks ≥ t)
        | none => decide (s.playedTime ≥ time)
      if brk then (s, pitchBends, saved, true)
      else
        let info := getEvent event.messageStatusByte
        let step :=
          if info.status = messageTypes.noteOn ∨ info.status = messageTypes.noteOff then
            (s, pitchBends, saved)
          else if info.status = messageTypes.pitchBend then
            (s, pitchBends.set info.channel
              (event.messageData.getD 1 0 <<< 7 ||| event.messageData.getD 0 0), saved)
          else if info.status = messageTypes.controllerChange then
            let controllerNumber := event.messageData.getD 0 0
            if playToImmediateControllerCheck controllerNumber then
              if s.sendMIDIMessages then
                ({ s with messages := s.messages ++
                    [SeqOutMessage.ccMsg info.channel controllerNumber
                      ((event.messageData.getD 1 0 : Nat) : Int)] }, pitchBends, saved)
              else
                ({ s with synthChannels := (synthControllerChange s.synthChannels
                    info.channel controllerNumber
                    ((event.messageData.getD 1 0 : Nat) : Int)) }, pitchBends, saved)
            else
              let channel := info.channel + portOffsetFor s ti
              (s, pitchBends, setSavedController saved channel controllerNumber
                ((event.messageData.getD 1 0 : Nat) : Int))
          else if info.status = messageTypes.midiPort then
            let s2 := processEvent s ti event
            (s2, pitchBends, growSavedControllers saved s2.synthChannels.length)
          else
            (processEvent s ti event, pitchBends, saved)
        let s3 :=
          { step.1 with eventIndex :=
              step.1.eventIndex.set ti (step.1.eventIndex.getD ti 0 + 1) }
        let ti2 := findFirstEventIndex s3
        match nextEventOf s3 ti2 with
        | none => (s3, step.2.1, step.2.2, false)
        | some nextEvent =>
          let s4 :=
            { s3 with playedTime := s3.playedTime +
                s3.oneTickToSeconds * (((nextEvent.ticks : Int) - (event.ticks : Int) : Int) : Rat) }
          playToLoop fuel s4 step.2.1 step.2.2 time ticks

/-- The passthrough batch at the end of _playTo: for each of the 16
channels, the saved pitch bend, then every saved controller whose value
differs from `defaultControllerArray[channelNumber]` (the channel number,
as in the source, not the controller index). -/
def passthroughBatch (msgs : List SeqOutMessage) (pitchBends : List Nat)
    (saved : List (Option (List Int))) : List SeqOutMessage :=
  (List.range 16).foldl
    (fun acc channelNumber =>
      let v := pitchBends.getD channelNumber 0
      let acc1 := acc ++ [SeqOutMessage.pitchBendMsg channelNumber (v &&& 0x7F) (v >>> 7)]
      match saved.getD channelNumber none with
      | none => acc1
      | some l =>
        acc1 ++ l.enum.filterMap (fun p =>
          if defaultControllerArray.get? channelNumber ≠ some p.2 then
            some (SeqOutMessage.ccMsg channelNumber p.1 p.2)
          else none))
    msgs

/-- The direct-mode batch at the end of _playTo: for every synth channel,
restore the saved pitch bend (when channel < 16) and every saved
controller whose value differs from `defaultControllerArray[index]`. -/
def directBatch (chs : List ChannelState) (pitchBends : List Nat)
    (saved : List (Option (List Int))) : List ChannelState :=
  (List.range chs.length).foldl
    (fun acc channelNumber =>
      let acc1 :=
        match pitchBends.get? channelNumber with
        | some v => synthPitchWheel acc channelNumber (v >>> 7) (v &&& 0x7F)
        | none => acc
      match saved.getD channelNumber none with
      | none => acc1
      | some l =>
        l.enum.foldl
          (fun a p =>
            if defaultControllerArray.get? p.1 ≠ some p.2 then
              synthControllerChange a channelNumber p.1 p.2
            else a)
          acc1)
    chs

/-- _playTo from the source: reset all controllers (and send a reset in
passthrough mode), rewind (this._resetTimers, modelled from the spec as
resetting the cursors and played time, spec 4.7), silently replay every
non-note message before the target, then issue the saved pitch bends and
controllers in one batch.  Returns false (skipping the batch) when the
file ran out. -/
def _playTo (s0 : WorkletSequencerState) (time : Rat) (ticks : Option Nat) :
    WorkletSequencerState × Bool :=
  let s :=
    { s0 with
      oneTickToSeconds := 60 / (120 * (s0.timeDivision : Rat))
      synthChannels := s0.synthChannels.map (fun _ => initialChannelState)
      messages := s0.messages ++
        (if s0.sendMIDIMessages then [SeqOutMessage.resetMsg] else [])
      playedTime := 0
      eventIndex := s0.tracks.map (fun _ => 0) }
  let pitchBends := List.replicate 16 (8192 : Nat)
  let saved := (List.replicate 16 (some defaultControllerArray) : List (Option (List Int)))
  let fuel := (s.tracks.map List.length).sum + 1
  let r := playToLoop fuel s pitchBends saved time ticks
  if r.2.2.2 then
    if r.1.sendMIDIMessages then
      ({ r.1 with messages := passthroughBatch r.1.messages r.2.1 r.2.2.1 }, true)
    else
      ({ r.1 with synthChannels := directBatch r.1.synthChannels r.2.1 r.2.2.1 }, true)
  else (r.1, false)

/-- The claim's reference semantics, following the spec's words: play every
event from tick 0 up to (excluding) the target tick in absolute tick
order, with note-on and note-off messages muted, each remaining message
applied directly to the consumer's per-channel state. -/
def referenceLoop (fuel : Nat) (s : WorkletSequencerState)
    (sink : List ChannelState) (t : Nat) : List ChannelState :=
  match fuel with
  | 0 => sink
  | fuel + 1 =>
    let ti := findFirstEventIndex s
    match nextEventOf s ti with
    | none => sink
    | some event =>
      if event.ticks ≥ t then sink
      else
        let info := getEvent event.messageStatusByte
        let sink1 :=
          if info.status = messageTypes.noteOn ∨ info.status = messageTypes.noteOff then
            sink
          else if info.status = messageTypes.controllerChange then
            synthControllerChange sink info.channel (event.messageData.getD 0 0)
              ((event.messageData.getD 1 0 : Nat) : Int)
          else if info.status = messageTypes.pitchBend then
            setChannelAt sink info.channel (fun c =>
              { c with pitchWheel := event.messageData.getD 1 0 <<< 7 ||| event.messageData.getD 0 0 })
          else if info.status = messageTypes.programChange then
            setChannelAt sink info.channel (fun c => { c with program := event.messageData.getD 0 0 })
          else sink
        let s2 := { s with eventIndex := s.eventIndex.set ti (s.eventIndex.getD ti 0 + 1) }
        referenceLoop fuel s2 sink1 t

/-- Reference state for a seek to tick `t`: every non-note message from the
start replayed into a freshly reset 16-channel state. -/
def referenceReplay (s0 : WorkletSequencerState) (t : Nat) : List ChannelState :=
  let s := { s0 with eventIndex := s0.tracks.map (fun _ => 0) }
  referenceLoop ((s.tracks.map List.length).sum + 1) s
    (List.replicate 16 initialChannelState) t


/-! ## Concrete inputs used by counterexamples and witnesses -/

/-- An envelope with the field initializers of the class: clock at 0,
current attenuation at DB_SILENCE, state 0, unit release gain, and a
sample rate of 100 Hz. -/
def baseEnv : WorkletVolumeEnvelope :=
  { sampleRate := 100
    currentSampleTime := 0
    currentAttenuationDb := 100
    state := 0
    releaseStartDb := 100
    releaseStartTimeSamples := 0
    currentReleaseGain := 1
    attackDuration := 0
    decayDuration := 0
    releaseDuration := 0
    attenuation := 0
    sustainDb := 0
    delayEnd := 0
    attackEnd := 0
    holdEnd := 0
    decayEnd := 0 }

/-- An all-zero modulated generator vector. -/
def zeroGens : Nat → Real := fun _ => 0

/-- A voice at key 60 with sustainVolEnv = 1100 centibels (sustain 110 dB
below peak) and every other generator 0. -/
def cv5 : WorkletVoice :=
  { volumeEnvelope := baseEnv
    modulatedGenerators := fun g => if g = generatorTypes.sustainVolEnv then 1100 else 0
    targetKey := 60
    isInRelease := false
    finished := false }

/-- A voice at key 60 with sustainVolEnv = -100 centibels (sustain 10 dB
louder than the peak) and every other generator 0. -/
def cv5neg : WorkletVoice :=
  { volumeEnvelope := baseEnv
    modulatedGenerators := fun g => if g = generatorTypes.sustainVolEnv then -100 else 0
    targetKey := 60
    isInRelease := false
    finished := false }

/-- A releasing voice whose envelope is still in the delay stage. -/
def cv3 : WorkletVoice :=
  { volumeEnvelope := baseEnv
    modulatedGenerators := zeroGens
    targetKey := 60
    isInRelease := true
    finished := false }

/-- A releasing voice that entered release at 96 dB with a one-sample
release duration. -/
def cv2 : WorkletVoice :=
  { volumeEnvelope := { baseEnv with releaseStartDb := 96, releaseDuration := 1 }
    modulatedGenerators := zeroGens
    targetKey := 60
    isInRelease := true
    finished := false }

/-- A non-releasing voice in the attack stage, two samples into a
two-sample attack. -/
def cv4 : WorkletVoice :=
  { volumeEnvelope := { baseEnv with state := 1, attackEnd := 2, attackDuration := 2 }
    modulatedGenerators := zeroGens
    targetKey := 60
    isInRelease := false
    finished := false }

/-- A non-releasing voice in the sustain stage. -/
def cv9 : WorkletVoice :=
  { volumeEnvelope := { baseEnv with state := 4 }
    modulatedGenerators := zeroGens
    targetKey := 60
    isInRelease := false
    finished := false }

/-- A non-releasing, non-finished voice. -/
def cvA : WorkletVoice :=
  { volumeEnvelope := baseEnv
    modulatedGenerators := zeroGens
    targetKey := 60
    isInRelease := false
    finished := false }

/-- A releasing, non-finished voice. -/
def cvB : WorkletVoice :=
  { volumeEnvelope := baseEnv
    modulatedGenerators := zeroGens
    targetKey := 60
    isInRelease := true
    finished := false }

/-- One track: a pan change (controller 10, value 100) on channel 7 at
tick 0, then a note-on at tick 10. -/
def fiTrack : List SeqEvent :=
  [{ ticks := 0, messageStatusByte := 0xB7, messageData := [10, 100] },
   { ticks := 10, messageStatusByte := 0x97, messageData := [60, 100] }]

/-- A passthrough-mode sequencer loaded with fiTrack. -/
def fiState : WorkletSequencerState :=
  { tracks := [fiTrack]
    eventIndex := [0]
    midiPorts := [0]
    midiPortChannelOffsets := [0]
    sendMIDIMessages := true
    synthChannels := List.replicate 16 initialChannelState
    playedTime := 0
    oneTickToSeconds := 0
    timeDivision := 480
    messages := [] }

/-- One track: a data-increment (controller 96, value 5) on channel 0 at
tick 0, then a note-on at tick 10. -/
def fiC7Track : List SeqEvent :=
  [{ ticks := 0, messageStatusByte := 0xB0, messageData := [96, 5] },
   { ticks := 10, messageStatusByte := 0x90, messageData := [60, 100] }]

/-- A passthrough-mode sequencer loaded with fiC7Track. -/
def fiC7State : WorkletSequencerState :=
  { tracks := [fiC7Track]
    eventIndex := [0]
    midiPorts := [0]
    midiPortChannelOffsets := [0]
    sendMIDIMessages := true
    synthChannels := List.replicate 16 initialChannelState
    playedTime := 0
    oneTickToSeconds := 0
    timeDivision := 480
    messages := [] }


/-- Statement helper for the decay stage: the smoothing target the source
computes for the sample whose loop iteration starts at clock t0 + 2i (the
post-incremented clock t0 + 2i + 1 enters the interpolation). -/
noncomputable def decayTargetDb
    (decayEnd decayDuration sustainDb attenuation off t0 : Real) (i : Nat) : Real :=
  (1 - (decayEnd - (t0 + 2 * i + 1)) / decayDuration) * (sustainDb - attenuation) +
    attenuation + off

/-! ## Theorems -/

/-- C5 counterexample: with attenuation 0 and sustainVolEnv 1100 cB the
recalculated sustainDb is 110 > 100 yet the decay duration is positive
(110 samples), refuting "whenever sustainDb > 100 the fraction, and hence
decayDuration, is negative". -/
theorem c5_negative_decay_counterexample :
    100 < (WorkletVolumeEnvelope.recalculate cv5).sustainDb ∧
    0 < (WorkletVolumeEnvelope.recalculate cv5).decayDuration := by
  constructor <;>
  · simp only [WorkletVolumeEnvelope.recalculate, cv5, baseEnv,
      WorkletVolumeEnvelope.timecentsToSamples, timecentsToSeconds,
      generatorTypes.sustainVolEnv, generatorTypes.initialAttenuation,
      generatorTypes.attackVolEnv, generatorTypes.decayVolEnv,
      generatorTypes.keyNumToVolEnvDecay, generatorTypes.releaseVolEnv,
      generatorTypes.delayVolEnv, generatorTypes.holdVolEnv,
      generatorTypes.keyNumToVolEnvHold]
    norm_num [Real.rpow_zero]

/-- C5 as amended: decayDuration is
timecentsToSamples(decayVolEnv + (60-key)*keyNumToVolEnvDecay) scaled by
(sustainDb - attenuation) / (100 - attenuation), the hold end uses the
(60-key)*keyNumToVolEnvHold excursion, and (with attenuation < 100) the
unclamped fraction is negative exactly when sustainDb < attenuation. -/
theorem c5_decay_formula_amended (v : WorkletVoice) :
    (WorkletVolumeEnvelope.recalculate v).decayDuration =
      v.volumeEnvelope.timecentsToSamples
        (v.modulatedGenerators generatorTypes.decayVolEnv +
          (60 - v.targetKey) * v.modulatedGenerators generatorTypes.keyNumToVolEnvDecay) *
        (((WorkletVolumeEnvelope.recalculate v).sustainDb -
            (WorkletVolumeEnvelope.recalculate v).attenuation) /
          (100 - (WorkletVolumeEnvelope.recalculate v).attenuation)) ∧
    (WorkletVolumeEnvelope.recalculate v).holdEnd =
      v.volumeEnvelope.timecentsToSamples
        (v.modulatedGenerators generatorTypes.holdVolEnv +
          (60 - v.targetKey) * v.modulatedGenerators generatorTypes.keyNumToVolEnvHold) +
      (WorkletVolumeEnvelope.recalculate v).attackEnd ∧
    ((WorkletVolumeEnvelope.recalculate v).attenuation < 100 →
      (((WorkletVolumeEnvelope.recalculate v).sustainDb -
            (WorkletVolumeEnvelope.recalculate v).attenuation) /
          (100 - (WorkletVolumeEnvelope.recalculate v).attenuation) < 0 ↔
        (WorkletVolumeEnvelope.recalculate v).sustainDb <
          (WorkletVolumeEnvelope.recalculate v).attenuation)) := by
  refine ⟨?_, ?_, ?_⟩
  · cases hrel : v.isInRelease <;>
      simp [WorkletVolumeEnvelope.recalculate, hrel]
  · cases hrel : v.isInRelease <;>
      simp [WorkletVolumeEnvelope.recalculate, hrel]
  · intro h
    have hb : (0 : Real) < 100 - (WorkletVolumeEnvelope.recalculate v).attenuation := by
      linarith
    rw [div_lt_iff₀ hb, zero_mul, sub_neg]

/-- C5 witness: a voice whose sustain is 10 dB louder than the peak
(sustainVolEnv = -100 cB) really gets a negative decay duration. -/
theorem c5_decay_formula_amended_witness :
    (WorkletVolumeEnvelope.recalculate cv5neg).decayDuration < 0 := by
  obtain ⟨h1, h2, h3⟩ := c5_decay_formula_amended cv5neg
  rw [h1]
  have hatt : (WorkletVolumeEnvelope.recalculate cv5neg).attenuation = 0 := by
    cases hrel : cv5neg.isInRelease <;>
      simp [WorkletVolumeEnvelope.recalculate, cv5neg, baseEnv, hrel,
        generatorTypes.initialAttenuation, generatorTypes.sustainVolEnv]
  have hsus : (WorkletVolumeEnvelope.recalculate cv5neg).sustainDb = -10 := by
    cases hrel : cv5neg.isInRelease <;>
    · simp only [WorkletVolumeEnvelope.recalculate, cv5neg, baseEnv, hrel,
        generatorTypes.initialAttenuation, generatorTypes.sustainVolEnv]
      norm_num
  have hfrac := (h3 (by rw [hatt]; norm_num)).2 (by rw [hatt, hsus]; norm_num)
  have htcs : cv5neg.volumeEnvelope.timecentsToSamples
      (cv5neg.modulatedGenerators generatorTypes.decayVolEnv +
        (60 - cv5neg.targetKey) *
          cv5neg.modulatedGenerators generatorTypes.keyNumToVolEnvDecay) = 100 := by
    simp only [WorkletVolumeEnvelope.timecentsToSamples, timecentsToSeconds, cv5neg,
      baseEnv, generatorTypes.decayVolEnv, generatorTypes.keyNumToVolEnvDecay,
      generatorTypes.sustainVolEnv]
    norm_num [Real.rpow_zero]
  rw [htcs] at *
  exact mul_neg_of_pos_of_neg (by norm_num) hfrac

/-- C3: when recalculate runs on a releasing voice, releaseStartDb is
derived from the stage the envelope was in: 100 dB in delay,
-20*log10(attackProgress * peakGain) in attack, the attenuation in hold,
the decay interpolation between attenuation and sustainDb in decay, and
sustainDb in sustain. -/
theorem c3_release_start_db_cases (v : WorkletVoice) (hrel : v.isInRelease = true) :
    (v.volumeEnvelope.state = 0 →
      (WorkletVolumeEnvelope.recalculate v).releaseStartDb = 100) ∧
    (v.volumeEnvelope.state = 1 →
      (WorkletVolumeEnvelope.recalculate v).releaseStartDb =
        -20 * Real.logb 10
          ((1 - ((WorkletVolumeEnvelope.recalculate v).attackEnd -
              v.volumeEnvelope.releaseStartTimeSamples) /
                (WorkletVolumeEnvelope.recalculate v).attackDuration) *
            decibelAttenuationToGain (WorkletVolumeEnvelope.recalculate v).attenuation)) ∧
    (v.volumeEnvelope.state = 2 →
      (WorkletVolumeEnvelope.recalculate v).releaseStartDb =
        (WorkletVolumeEnvelope.recalculate v).attenuation) ∧
    (v.volumeEnvelope.state = 3 →
      (WorkletVolumeEnvelope.recalculate v).releaseStartDb =
        (1 - ((WorkletVolumeEnvelope.recalculate v).decayEnd -
            v.volumeEnvelope.releaseStartTimeSamples) /
              (WorkletVolumeEnvelope.recalculate v).decayDuration) *
          ((WorkletVolumeEnvelope.recalculate v).sustainDb -
            (WorkletVolumeEnvelope.recalculate v).attenuation) +
          (WorkletVolumeEnvelope.recalculate v).attenuation) ∧
    (v.volumeEnvelope.state = 4 →
      (WorkletVolumeEnvelope.recalculate v).releaseStartDb =
        (WorkletVolumeEnvelope.recalculate v).sustainDb) := by
  refine ⟨?_, ?_, ?_, ?_, ?_⟩ <;> intro hs <;>
    simp [WorkletVolumeEnvelope.recalculate, hrel, hs, DB_SILENCE]

/-- C3 witness: a releasing voice still in the delay stage gets a
releaseStartDb of 100 dB. -/
theorem c3_release_start_db_cases_witness :
    (WorkletVolumeEnvelope.recalculate cv3).releaseStartDb = 100 :=
  (c3_release_start_db_cases cv3 rfl).1 rfl

/-- C10: apply never touches the finished flag on a non-releasing voice,
and on the release path with an empty buffer the tested db stays at its
initial 0, so the flag is not set there either. -/
theorem c10_finished_only_in_release (v : WorkletVoice)
    (centibelOffset smoothingFactor : Real) :
    (∀ buf, v.isInRelease = false →
      (WorkletVolumeEnvelope.apply v buf centibelOffset smoothingFactor).1.finished =
        v.finished) ∧
    (v.isInRelease = true →
      (WorkletVolumeEnvelope.apply v [] centibelOffset smoothingFactor).1.finished =
        v.finished) := by
  constructor
  · intro buf h
    simp [WorkletVolumeEnvelope.apply, h]
  · intro h
    rw [WorkletVolumeEnvelope.apply]
    simp only [h, if_true]
    rw [WorkletVolumeEnvelope.applyReleaseLoop]
    rw [if_neg (by norm_num [PERCEIVED_DB_SILENCE])]

/-- C10 witness: a non-releasing voice keeps finished false over a
one-sample block, and a releasing voice with an empty buffer does too. -/
theorem c10_finished_only_in_release_witness :
    (WorkletVolumeEnvelope.apply cvA [1] 5 3).1.finished = false ∧
    (WorkletVolumeEnvelope.apply cvB [] 2 1).1.finished = false :=
  ⟨(c10_finished_only_in_release cvA 5 3).1 [1] rfl,
   (c10_finished_only_in_release cvB 2 1).2 rfl⟩

set_option maxRecDepth 8000 in
/-- C7 (code bug): the immediate-controller filter of _playTo never lets a
data-increment (controller 96) through, because the source tests
dataDecrement twice; on a file whose only pre-seek event is a CC#96 the
passthrough replay emits nothing between the reset and the batch. -/
theorem c7_data_increment_deferred :
    playToImmediateControllerCheck midiControllers.dataIncrement = false ∧
    playToImmediateControllerCheck midiControllers.dataDecrement = true ∧
    midiControllers.dataIncrement = 96 ∧
    (_playTo fiC7State 0 (some 5)).1.messages.take 2 =
      [SeqOutMessage.resetMsg, SeqOutMessage.pitchBendMsg 0 0 64] := by
  decide

/-- C6 counterexample: the default controller vector has only 127 entries
(Int16Array(127)), so controller 127 has no value at all, refuting "0 to
every other one of the 128 MIDI controllers". -/
theorem c6_default_array_counterexample :
    ¬ (∀ i, i < 128 → i ≠ midiControllers.mainVolume →
        i ≠ midiControllers.expressionController → i ≠ midiControllers.pan →
        i ≠ midiControllers.releaseTime → i ≠ midiControllers.brightness →
        i ≠ midiControllers.effects1Depth →
        defaultControllerArray.get? i = some 0) := by
  intro h
  exact absurd
    (h 127 (by decide) (by decide) (by decide) (by decide) (by decide) (by decide)
      (by decide))
    (by decide)

set_option maxRecDepth 4000 in
/-- C6 as amended: the vector has 127 entries, the six named controllers
get their values, and every other index below 127 is 0. -/
theorem c6_default_array_amended :
    defaultControllerArray.length = 127 ∧
    defaultControllerArray.get? midiControllers.mainVolume = some 100 ∧
    defaultControllerArray.get? midiControllers.expressionController = some 127 ∧
    defaultControllerArray.get? midiControllers.pan = some 64 ∧
    defaultControllerArray.get? midiControllers.releaseTime = some 64 ∧
    defaultControllerArray.get? midiControllers.brightness = some 64 ∧
    defaultControllerArray.get? midiControllers.effects1Depth = some 40 ∧
    (∀ i : Fin 127, (i : Nat) ≠ midiControllers.mainVolume →
      (i : Nat) ≠ midiControllers.expressionController →
      (i : Nat) ≠ midiControllers.pan →
      (i : Nat) ≠ midiControllers.releaseTime →
      (i : Nat) ≠ midiControllers.brightness →
      (i : Nat) ≠ midiControllers.effects1Depth →
      defaultControllerArray.get? (i : Nat) = some 0) := by
  decide

/-- C6 witness: index 0 (bank select) defaults to 0. -/
theorem c6_default_array_amended_witness :
    defaultControllerArray.get? 0 = some 0 :=
  c6_default_array_amended.2.2.2.2.2.2.2 ⟨0, by decide⟩ (by decide) (by decide)
    (by decide) (by decide) (by decide) (by decide)


/-- Packing a 7-bit low byte next to a shifted high byte is plain
arithmetic. -/
theorem pitchBendPackEq (msb lsb : Nat) (hl : lsb < 128) :
    msb <<< 7 ||| lsb = 128 * msb + lsb := by
  have h := Nat.mul_add_lt_is_or (i := 7) (b := lsb) (by norm_num; omega) msb
  calc msb <<< 7 ||| lsb = 2 ^ 7 * msb ||| lsb := by
        rw [Nat.shiftLeft_eq, Nat.mul_comm]
    _ = 2 ^ 7 * msb + lsb := h.symm
    _ = 128 * msb + lsb := by norm_num

/-- The high-byte extraction is division by 128. -/
theorem pitchBendMsbEq (v : Nat) : v >>> 7 = v / 128 := by
  rw [Nat.shiftRight_eq_div_pow]

/-- The low-byte extraction is reduction mod 128. -/
theorem pitchBendLsbEq (v : Nat) : v &&& 0x7F = v % 128 := by
  have h := Nat.and_pow_two_sub_one_eq_mod v 7
  norm_num at h
  exact h

/-- C8: the 14-bit pitch-wheel value recorded from the two event data
bytes as (msb SHL 7) OR lsb decomposes back into the same bytes, and a
value below 2^14 survives the decomposition into the synth's pitchWheel
call or the passthrough pitch-bend message: the channel state afterwards
holds exactly the recorded value. -/
theorem c8_pitch_wheel_roundtrip (v msb lsb : Nat) (_hv : v < 16384)
    (_hm : msb < 128) (hl : lsb < 128) :
    (msb <<< 7 ||| lsb) >>> 7 = msb ∧
    (msb <<< 7 ||| lsb) &&& 0x7F = lsb ∧
    ((synthPitchWheel [initialChannelState] 0 (v >>> 7) (v &&& 0x7F)).getD 0
        initialChannelState).pitchWheel = v ∧
    ((applyOutMessage [initialChannelState]
        (SeqOutMessage.pitchBendMsg 0 (v &&& 0x7F) (v >>> 7))).getD 0
        initialChannelState).pitchWheel = v := by
  have hrt : (v >>> 7) <<< 7 ||| (v &&& 0x7F) = v := by
    rw [pitchBendMsbEq, pitchBendLsbEq, pitchBendPackEq (v / 128) (v % 128) (by omega)]
    omega
  refine ⟨?_, ?_, ?_, ?_⟩
  · rw [pitchBendPackEq msb lsb hl, pitchBendMsbEq]
    omega
  · rw [pitchBendPackEq msb lsb hl, pitchBendLsbEq]
    omega
  · simp [synthPitchWheel, setChannelAt, hrt]
  · simp [applyOutMessage, setChannelAt, hrt]

/-- C8 witness at msb 70, lsb 40 and value 9000. -/
theorem c8_pitch_wheel_roundtrip_witness :
    (70 <<< 7 ||| 40) >>> 7 = 70 ∧
    (70 <<< 7 ||| 40) &&& 0x7F = 40 ∧
    ((synthPitchWheel [initialChannelState] 0 (9000 >>> 7) (9000 &&& 0x7F)).getD 0
        initialChannelState).pitchWheel = 9000 ∧
    ((applyOutMessage [initialChannelState]
        (SeqOutMessage.pitchBendMsg 0 (9000 &&& 0x7F) (9000 >>> 7))).getD 0
        initialChannelState).pitchWheel = 9000 :=
  c8_pitch_wheel_roundtrip 9000 70 40 (by norm_num) (by norm_num) (by norm_num)

set_option maxRecDepth 8000 in
/-- C1 (code bug): seeking to tick 5 in passthrough mode on a file whose
only pre-seek event sets pan (controller 10) to 100 on channel 7 leaves
the sink's pan at the default 64, because the batch filter compares the
saved value with defaultControllerArray[channelNumber] (which is 100 for
channel 7, the main-volume default) instead of the controller's own
default; replaying every non-note event as the claim demands yields
pan = 100. -/
theorem c1_seek_passthrough_divergence :
    (((_playTo fiState 0 (some 5)).1.messages.foldl applyOutMessage
        (List.replicate 16 initialChannelState)).getD 7
        initialChannelState).controllers.getD 10 0 = 64 ∧
    ((referenceReplay fiState 5).getD 7 initialChannelState).controllers.getD 10 0 = 100 ∧
    (((_playTo fiState 0 (some 5)).1.messages.foldl applyOutMessage
        (List.replicate 16 initialChannelState)).getD 7
        initialChannelState).controllers.getD 10 0 ≠
      ((referenceReplay fiState 5).getD 7 initialChannelState).controllers.getD 10 0 := by
  decide


/-- The `db` local of the release loop after a block: 0 for an empty
buffer, otherwise the linear ramp evaluated at the last sample. -/
theorem applyReleaseLoop_final_db (off rsf dbDiff : Real) (buf : List Real) :
    ∀ (env : WorkletVolumeEnvelope) (e db0 : Real),
      (WorkletVolumeEnvelope.applyReleaseLoop env off rsf dbDiff e db0 buf).2.1 =
        if buf.length = 0 then db0
        else (e + buf.length - 1) / env.releaseDuration * dbDiff + env.releaseStartDb := by
  induction buf with
  | nil =>
    intro env e db0
    simp [WorkletVolumeEnvelope.applyReleaseLoop]
  | cons x rest ih =>
    intro env e db0
    rw [WorkletVolumeEnvelope.applyReleaseLoop]
    simp only [List.length_cons, Nat.succ_ne_zero, if_neg, ih]
    rcases Nat.eq_zero_or_pos rest.length with hz | hp
    · rw [if_pos hz, hz]
      push_cast
      ring_nf
    · rw [if_neg (by omega)]
      push_cast
      ring_nf


/-- C2: over a nonempty block, a releasing voice's release dB ramps
linearly from releaseStartDb toward 100 dB over releaseDuration samples
(the value tested after the block is the ramp at the last sample), the
finished flag is set during that block exactly when that value has
reached 96 dB, and a finished voice is absent from the next block's voice
list. -/
theorem c2_release_ramp_and_finish (v : WorkletVoice) (buf : List Real)
    (centibelOffset smoothingFactor : Real) (hrel : v.isInRelease = true)
    (hne : buf ≠ []) :
    ((WorkletVolumeEnvelope.apply v buf centibelOffset smoothingFactor).1.finished = true ↔
      (v.finished = true ∨
        (v.volumeEnvelope.currentSampleTime - v.volumeEnvelope.releaseStartTimeSamples +
              buf.length - 1) / v.volumeEnvelope.releaseDuration *
            (100 - v.volumeEnvelope.releaseStartDb) +
          v.volumeEnvelope.releaseStartDb ≥ 96)) ∧
    ((v.volumeEnvelope.currentSampleTime - v.volumeEnvelope.releaseStartTimeSamples +
          buf.length - 1) / v.volumeEnvelope.releaseDuration *
        (100 - v.volumeEnvelope.releaseStartDb) +
        v.volumeEnvelope.releaseStartDb ≥ 96 →
      removeFinishedVoices
        [(WorkletVolumeEnvelope.apply v buf centibelOffset smoothingFactor).1] = []) := by
  have hdb := applyReleaseLoop_final_db (centibelOffset / 10) (smoothingFactor * 10)
    (DB_SILENCE - v.volumeEnvelope.releaseStartDb) buf v.volumeEnvelope
    (v.volumeEnvelope.currentSampleTime - v.volumeEnvelope.releaseStartTimeSamples) 0
  rw [if_neg (by simpa using hne)] at hdb
  rw [WorkletVolumeEnvelope.apply]
  simp only [hrel, if_true]
  rw [hdb]
  simp only [DB_SILENCE, PERCEIVED_DB_SILENCE]
  constructor
  · by_cases hc :
        (v.volumeEnvelope.currentSampleTime - v.volumeEnvelope.releaseStartTimeSamples +
              buf.length - 1) / v.volumeEnvelope.releaseDuration *
            (100 - v.volumeEnvelope.releaseStartDb) +
          v.volumeEnvelope.releaseStartDb ≥ 96
    · rw [if_pos hc]
      simp [hc]
    · rw [if_neg hc]
      simp [hc]
  · intro hge
    rw [if_pos hge]
    simp [removeFinishedVoices]

/-- C2 witness: a release that started at 96 dB with a one-sample release
duration is marked finished on its first one-sample block and filtered
out of the voice list. -/
theorem c2_release_ramp_and_finish_witness :
    (WorkletVolumeEnvelope.apply cv2 [0] 0 0).1.finished = true ∧
    removeFinishedVoices [(WorkletVolumeEnvelope.apply cv2 [0] 0 0).1] = [] := by
  have h := c2_release_ramp_and_finish cv2 [0] 0 0 rfl (by simp)
  have harg :
      (cv2.volumeEnvelope.currentSampleTime - cv2.volumeEnvelope.releaseStartTimeSamples +
            ([(0 : Real)].length : Real) - 1) / cv2.volumeEnvelope.releaseDuration *
          (100 - cv2.volumeEnvelope.releaseStartDb) +
        cv2.volumeEnvelope.releaseStartDb ≥ 96 := by
    norm_num [cv2, baseEnv]
  exact ⟨h.1.mpr (Or.inr harg), h.2 harg⟩


/-- Clock advance of the sustain loop: one per written sample. -/
theorem applySustain_time (off sf : Real) (buf : List Real) :
    ∀ env : WorkletVolumeEnvelope, buf ≠ [] →
      (WorkletVolumeEnvelope.applySustain env off sf buf).1.currentSampleTime =
        env.currentSampleTime + buf.length := by
  induction buf with
  | nil => intro env h; exact absurd rfl h
  | cons x rest ih =>
    intro env _
    rw [WorkletVolumeEnvelope.applySustain]
    rcases rest with _ | ⟨y, rest2⟩
    · simp [WorkletVolumeEnvelope.getInterpolatedGain]
    · simp only [WorkletVolumeEnvelope.getInterpolatedGain, List.isEmpty_cons,
        Bool.false_eq_true, if_false]
      refine Eq.trans (ih _ (by simp)) ?_
      push_cast [List.length_cons]
      ring

/-- Output length of the sustain loop: one sample per input cell. -/
theorem applySustain_len (off sf : Real) (buf : List Real) :
    ∀ env : WorkletVolumeEnvelope,
      (WorkletVolumeEnvelope.applySustain env off sf buf).2.length = buf.length := by
  induction buf with
  | nil => intro env; simp [WorkletVolumeEnvelope.applySustain]
  | cons x rest ih =>
    intro env
    rw [WorkletVolumeEnvelope.applySustain]
    rcases rest with _ | ⟨y, rest2⟩
    · simp
    · simp only [WorkletVolumeEnvelope.getInterpolatedGain, List.isEmpty_cons,
        Bool.false_eq_true, if_false, List.length_cons]
      rw [ih _]
      simp

/-- Clock advance of the decay loop while it keeps running: two per
written sample, one from the post-increment in the condition and one from
the body. -/
theorem applyDecay_time (off sf : Real) (buf : List Real) :
    ∀ env : WorkletVolumeEnvelope, buf ≠ [] →
      (∀ i : Nat, i < buf.length →
        env.currentSampleTime + 2 * i < env.decayEnd) →
      (WorkletVolumeEnvelope.applyDecay env off sf buf).1.currentSampleTime =
        env.currentSampleTime + 2 * buf.length := by
  induction buf with
  | nil => intro env h _; exact absurd rfl h
  | cons x rest ih =>
    intro env _ hcond
    have h0 : env.currentSampleTime < env.decayEnd := by
      have := hcond 0 (by simp)
      simpa using this
    rw [WorkletVolumeEnvelope.applyDecay, if_pos h0]
    rcases rest with _ | ⟨y, rest2⟩
    · simp [WorkletVolumeEnvelope.getInterpolatedGain]
      ring
    · simp only [WorkletVolumeEnvelope.getInterpolatedGain, List.isEmpty_cons,
        Bool.false_eq_true, if_false]
      refine Eq.trans (ih _ (by simp) ?_) ?_
      · intro i hi
        have := hcond (i + 1) (by simpa using Nat.succ_lt_succ hi)
        simp only []
        push_cast at this ⊢
        linarith
      · simp only []
        push_cast [List.length_cons]
        ring

/-- Output length of the decay loop while it keeps running. -/
theorem applyDecay_len (off sf : Real) (buf : List Real) :
    ∀ env : WorkletVolumeEnvelope,
      (∀ i : Nat, i < buf.length →
        env.currentSampleTime + 2 * i < env.decayEnd) →
      (WorkletVolumeEnvelope.applyDecay env off sf buf).2.length = buf.length := by
  induction buf with
  | nil =>
    intro env _
    rw [WorkletVolumeEnvelope.applyDecay]
    by_cases h0 : env.currentSampleTime < env.decayEnd
    · rw [if_pos h0]
    · rw [if_neg h0]
      simp [WorkletVolumeEnvelope.applySustain, WorkletVolumeEnvelope.getInterpolatedGain]
  | cons x rest ih =>
    intro env hcond
    have h0 : env.currentSampleTime < env.decayEnd := by
      have := hcond 0 (by simp)
      simpa using this
    rw [WorkletVolumeEnvelope.applyDecay, if_pos h0]
    rcases rest with _ | ⟨y, rest2⟩
    · simp
    · simp only [WorkletVolumeEnvelope.getInterpolatedGain, List.isEmpty_cons,
        Bool.false_eq_true, if_false, List.length_cons]
      refine congrArg (fun n => n + 1) (ih _ ?_)
      intro i hi
      have := hcond (i + 1) (by simpa using Nat.succ_lt_succ hi)
      simp only []
      push_cast at this ⊢
      linarith


/-- Clock advance of the delay loop while it keeps running: one per
written sample. -/
theorem applyDelay_time (off sf : Real) (buf : List Real) :
    ∀ env : WorkletVolumeEnvelope, buf ≠ [] →
      (∀ i : Nat, i < buf.length → env.currentSampleTime + i < env.delayEnd) →
      (WorkletVolumeEnvelope.applyDelay env off sf buf).1.currentSampleTime =
        env.currentSampleTime + buf.length := by
  induction buf with
  | nil => intro env h _; exact absurd rfl h
  | cons x rest ih =>
    intro env _ hcond
    have h0 : env.currentSampleTime < env.delayEnd := by
      have := hcond 0 (by simp)
      simpa using this
    rw [WorkletVolumeEnvelope.applyDelay, if_pos h0]
    rcases rest with _ | ⟨y, rest2⟩
    · simp
    · simp only [List.isEmpty_cons, Bool.false_eq_true, if_false]
      refine Eq.trans (ih _ (by simp) ?_) ?_
      · intro i hi
        have := hcond (i + 1) (by simpa using Nat.succ_lt_succ hi)
        simp only []
        push_cast at this ⊢
        linarith
      · simp only []
        push_cast [List.length_cons]
        ring

/-- Output length of the delay loop while it keeps running. -/
theorem applyDelay_len (off sf : Real) (buf : List Real) :
    ∀ env : WorkletVolumeEnvelope,
      (∀ i : Nat, i < buf.length → env.currentSampleTime + i < env.delayEnd) →
      (WorkletVolumeEnvelope.applyDelay env off sf buf).2.length = buf.length := by
  induction buf with
  | nil =>
    intro env _
    rw [WorkletVolumeEnvelope.applyDelay]
    by_cases h0 : env.currentSampleTime < env.delayEnd
    · rw [if_pos h0]
    · rw [if_neg h0]
      rw [WorkletVolumeEnvelope.applyAttack]
      by_cases h1 : env.currentSampleTime < env.attackEnd
      · rw [if_pos h1]
      · rw [if_neg h1]
        rw [WorkletVolumeEnvelope.applyHold]
        by_cases h2 : env.currentSampleTime < env.holdEnd
        · rw [if_pos h2]
        · rw [if_neg h2]
          rw [WorkletVolumeEnvelope.applyDecay]
          by_cases h3 : env.currentSampleTime < env.decayEnd
          · rw [if_pos h3]
          · rw [if_neg h3]
            simp [WorkletVolumeEnvelope.applySustain,
              WorkletVolumeEnvelope.getInterpolatedGain]
  | cons x rest ih =>
    intro env hcond
    have h0 : env.currentSampleTime < env.delayEnd := by
      have := hcond 0 (by simp)
      simpa using this
    rw [WorkletVolumeEnvelope.applyDelay, if_pos h0]
    rcases rest with _ | ⟨y, rest2⟩
    · simp
    · simp only [List.isEmpty_cons, Bool.false_eq_true, if_false, List.length_cons]
      refine congrArg (fun n => n + 1) (ih _ ?_)
      intro i hi
      have := hcond (i + 1) (by simpa using Nat.succ_lt_succ hi)
      simp only []
      push_cast at this ⊢
      linarith

/-- Clock advance of the attack loop while it keeps running: one per
written sample. -/
theorem applyAttack_time (off sf : Real) (buf : List Real) :
    ∀ env : WorkletVolumeEnvelope, buf ≠ [] →
      (∀ i : Nat, i < buf.length → env.currentSampleTime + i < env.attackEnd) →
      (WorkletVolumeEnvelope.applyAttack env off sf buf).1.currentSampleTime =
        env.currentSampleTime + buf.length := by
  induction buf with
  | nil => intro env h _; exact absurd rfl h
  | cons x rest ih =>
    intro env _ hcond
    have h0 : env.currentSampleTime < env.attackEnd := by
      have := hcond 0 (by simp)
      simpa using this
    rw [WorkletVolumeEnvelope.applyAttack, if_pos h0]
    rcases rest with _ | ⟨y, rest2⟩
    · simp
    · simp only [List.isEmpty_cons, Bool.false_eq_true, if_false]
      refine Eq.trans (ih _ (by simp) ?_) ?_
      · intro i hi
        have := hcond (i + 1) (by simpa using Nat.succ_lt_succ hi)
        simp only []
        push_cast at this ⊢
        linarith
      · simp only []
        push_cast [List.length_cons]
        ring

/-- Output length of the attack loop while it keeps running. -/
theorem applyAttack_len (off sf : Real) (buf : List Real) :
    ∀ env : WorkletVolumeEnvelope,
      (∀ i : Nat, i < buf.length → env.currentSampleTime + i < env.attackEnd) →
      (WorkletVolumeEnvelope.applyAttack env off sf buf).2.length = buf.length := by
  induction buf with
  | nil =>
    intro env _
    rw [WorkletVolumeEnvelope.applyAttack]
    by_cases h1 : env.currentSampleTime < env.attackEnd
    · rw [if_pos h1]
    · rw [if_neg h1]
      rw [WorkletVolumeEnvelope.applyHold]
      by_cases h2 : env.currentSampleTime < env.holdEnd
      · rw [if_pos h2]
      · rw [if_neg h2]
        rw [WorkletVolumeEnvelope.applyDecay]
        by_cases h3 : env.currentSampleTime < env.decayEnd
        · rw [if_pos h3]
        · rw [if_neg h3]
          simp [WorkletVolumeEnvelope.applySustain,
            WorkletVolumeEnvelope.getInterpolatedGain]
  | cons x rest ih =>
    intro env hcond
    have h0 : env.currentSampleTime < env.attackEnd := by
      have := hcond 0 (by simp)
      simpa using this
    rw [WorkletVolumeEnvelope.applyAttack, if_pos h0]
    rcases rest with _ | ⟨y, rest2⟩
    · simp
    · simp only [List.isEmpty_cons, Bool.false_eq_true, if_false, List.length_cons]
      refine congrArg (fun n => n + 1) (ih _ ?_)
      intro i hi
      have := hcond (i + 1) (by simpa using Nat.succ_lt_succ hi)
      simp only []
      push_cast at this ⊢
      linarith

/-- Clock advance of the hold loop while it keeps running: one per
written sample. -/
theorem applyHold_time (off sf : Real) (buf : List Real) :
    ∀ env : WorkletVolumeEnvelope, buf ≠ [] →
      (∀ i : Nat, i < buf.length → env.currentSampleTime + i < env.holdEnd) →
      (WorkletVolumeEnvelope.applyHold env off sf buf).1.currentSampleTime =
        env.currentSampleTime + buf.length := by
  induction buf with
  | nil => intro env h _; exact absurd rfl h
  | cons x rest ih =>
    intro env _ hcond
    have h0 : env.currentSampleTime < env.holdEnd := by
      have := hcond 0 (by simp)
      simpa using this
    rw [WorkletVolumeEnvelope.applyHold, if_pos h0]
    rcases rest with _ | ⟨y, rest2⟩
    · simp [WorkletVolumeEnvelope.getInterpolatedGain]
    · simp only [WorkletVolumeEnvelope.getInterpolatedGain, List.isEmpty_cons,
        Bool.false_eq_true, if_false]
      refine Eq.trans (ih _ (by simp) ?_) ?_
      · intro i hi
        have := hcond (i + 1) (by simpa using Nat.succ_lt_succ hi)
        simp only []
        push_cast at this ⊢
        linarith
      · simp only []
        push_cast [List.length_cons]
        ring

/-- Output length of the hold loop while it keeps running. -/
theorem applyHold_len (off sf : Real) (buf : List Real) :
    ∀ env : WorkletVolumeEnvelope,
      (∀ i : Nat, i < buf.length → env.currentSampleTime + i < env.holdEnd) →
      (WorkletVolumeEnvelope.applyHold env off sf buf).2.length = buf.length := by
  induction buf with
  | nil =>
    intro env _
    rw [WorkletVolumeEnvelope.applyHold]
    by_cases h2 : env.currentSampleTime < env.holdEnd
    · rw [if_pos h2]
    · rw [if_neg h2]
      rw [WorkletVolumeEnvelope.applyDecay]
      by_cases h3 : env.currentSampleTime < env.decayEnd
      · rw [if_pos h3]
      · rw [if_neg h3]
        simp [WorkletVolumeEnvelope.applySustain,
          WorkletVolumeEnvelope.getInterpolatedGain]
  | cons x rest ih =>
    intro env hcond
    have h0 : env.currentSampleTime < env.holdEnd := by
      have := hcond 0 (by simp)
      simpa using this
    rw [WorkletVolumeEnvelope.applyHold, if_pos h0]
    rcases rest with _ | ⟨y, rest2⟩
    · simp
    · simp only [WorkletVolumeEnvelope.getInterpolatedGain, List.isEmpty_cons,
        Bool.false_eq_true, if_false, List.length_cons]
      refine congrArg (fun n => n + 1) (ih _ ?_)
      intro i hi
      have := hcond (i + 1) (by simpa using Nat.succ_lt_succ hi)
      simp only []
      push_cast at this ⊢
      linarith


/-- C9: while a block stays inside the decay stage the envelope clock
advances by two per written sample (post-increment in the loop condition
plus the increment in the body), while in the delay, attack, hold and
sustain stages it advances by exactly one per written sample. -/
theorem c9_sample_time_advance (v : WorkletVoice) (buf : List Real)
    (centibelOffset smoothingFactor : Real) (hrel : v.isInRelease = false)
    (hne : buf ≠ []) :
    (v.volumeEnvelope.state = 3 →
      (∀ i : Nat, i < buf.length →
        v.volumeEnvelope.currentSampleTime + 2 * i < v.volumeEnvelope.decayEnd) →
      ((WorkletVolumeEnvelope.apply v buf centibelOffset
            smoothingFactor).1.volumeEnvelope.currentSampleTime =
          v.volumeEnvelope.currentSampleTime + 2 * buf.length ∧
        (WorkletVolumeEnvelope.apply v buf centibelOffset smoothingFactor).2.length =
          buf.length)) ∧
    (v.volumeEnvelope.state = 0 →
      (∀ i : Nat, i < buf.length →
        v.volumeEnvelope.currentSampleTime + i < v.volumeEnvelope.delayEnd) →
      ((WorkletVolumeEnvelope.apply v buf centibelOffset
            smoothingFactor).1.volumeEnvelope.currentSampleTime =
          v.volumeEnvelope.currentSampleTime + buf.length ∧
        (WorkletVolumeEnvelope.apply v buf centibelOffset smoothingFactor).2.length =
          buf.length)) ∧
    (v.volumeEnvelope.state = 1 →
      (∀ i : Nat, i < buf.length →
        v.volumeEnvelope.currentSampleTime + i < v.volumeEnvelope.attackEnd) →
      ((WorkletVolumeEnvelope.apply v buf centibelOffset
            smoothingFactor).1.volumeEnvelope.currentSampleTime =
          v.volumeEnvelope.currentSampleTime + buf.length ∧
        (WorkletVolumeEnvelope.apply v buf centibelOffset smoothingFactor).2.length =
          buf.length)) ∧
    (v.volumeEnvelope.state = 2 →
      (∀ i : Nat, i < buf.length →
        v.volumeEnvelope.currentSampleTime + i < v.volumeEnvelope.holdEnd) →
      ((WorkletVolumeEnvelope.apply v buf centibelOffset
            smoothingFactor).1.volumeEnvelope.currentSampleTime =
          v.volumeEnvelope.currentSampleTime + buf.length ∧
        (WorkletVolumeEnvelope.apply v buf centibelOffset smoothingFactor).2.length =
          buf.length)) ∧
    (v.volumeEnvelope.state = 4 →
      ((WorkletVolumeEnvelope.apply v buf centibelOffset
            smoothingFactor).1.volumeEnvelope.currentSampleTime =
          v.volumeEnvelope.currentSampleTime + buf.length ∧
        (WorkletVolumeEnvelope.apply v buf centibelOffset smoothingFactor).2.length =
          buf.length)) := by
  refine ⟨fun hs hc => ?_, fun hs hc => ?_, fun hs hc => ?_, fun hs hc => ?_,
    fun hs => ?_⟩ <;>
    simp only [WorkletVolumeEnvelope.apply, WorkletVolumeEnvelope.applyStages, hrel,
      Bool.false_eq_true, if_false, hs]
  · exact ⟨applyDecay_time _ _ buf v.volumeEnvelope hne hc,
      applyDecay_len _ _ buf v.volumeEnvelope hc⟩
  · exact ⟨applyDelay_time _ _ buf v.volumeEnvelope hne hc,
      applyDelay_len _ _ buf v.volumeEnvelope hc⟩
  · exact ⟨applyAttack_time _ _ buf v.volumeEnvelope hne hc,
      applyAttack_len _ _ buf v.volumeEnvelope hc⟩
  · exact ⟨applyHold_time _ _ buf v.volumeEnvelope hne hc,
      applyHold_len _ _ buf v.volumeEnvelope hc⟩
  · exact ⟨applySustain_time _ _ buf v.volumeEnvelope hne,
      applySustain_len _ _ buf v.volumeEnvelope⟩

/-- C9 witness: a sustain-stage voice advances its clock by exactly one
over a one-sample block. -/
theorem c9_sample_time_advance_witness :
    (WorkletVolumeEnvelope.apply cv9 [0] 7 2).1.volumeEnvelope.currentSampleTime = 1 ∧
    (WorkletVolumeEnvelope.apply cv9 [0] 7 2).2.length = 1 := by
  have h := (c9_sample_time_advance cv9 [0] 7 2 rfl (by simp)).2.2.2.2 rfl
  refine ⟨?_, h.2⟩
  rw [h.1]
  norm_num [cv9, baseEnv]


/-- Shifting the smoothing iteration by one step. -/
theorem envTargetIter_shift (c0 : Real) (T : Nat → Real) (sf : Real) :
    ∀ n : Nat, envTargetIter (c0 + (T 0 - c0) * sf) (fun j => T (j + 1)) sf n =
      envTargetIter c0 T sf (n + 1) := by
  intro n
  induction n with
  | zero => simp [envTargetIter]
  | succ k ihn =>
    conv_lhs => rw [envTargetIter]
    conv_rhs => rw [envTargetIter]
    rw [ihn]

/-- Shifting the smoothing iteration by one step, constant target. -/
theorem envTargetIter_const_shift (c0 T sf : Real) :
    ∀ n : Nat, envTargetIter (c0 + (T - c0) * sf) (fun _ => T) sf n =
      envTargetIter c0 (fun _ => T) sf (n + 1) := by
  intro n
  induction n with
  | zero => simp [envTargetIter]
  | succ k ihn =>
    conv_lhs => rw [envTargetIter]
    conv_rhs => rw [envTargetIter]
    rw [ihn]

/-- Attack-stage output shape: while the block stays inside the attack,
each written sample is the input scaled by the linear gain ramp times the
peak gain. -/
theorem applyAttack_out (off sf : Real) (buf : List Real) :
    ∀ env : WorkletVolumeEnvelope,
      (∀ i : Nat, i < buf.length → env.currentSampleTime + i < env.attackEnd) →
      ∀ i : Nat, i < buf.length →
        (WorkletVolumeEnvelope.applyAttack env off sf buf).2.getD i 0 =
          buf.getD i 0 *
            ((1 - (env.attackEnd - (env.currentSampleTime + i)) / env.attackDuration) *
              decibelAttenuationToGain (env.attenuation + off)) := by
  induction buf with
  | nil => intro env _ i hi; exact absurd hi (by simp)
  | cons x rest ih =>
    intro env hcond i hi
    have h0 : env.currentSampleTime < env.attackEnd := by
      have := hcond 0 (by simp)
      simpa using this
    rw [WorkletVolumeEnvelope.applyAttack, if_pos h0]
    rcases rest with _ | ⟨y, rest2⟩
    · have hz : i = 0 := by simpa using hi
      subst hz
      simp
    · simp only [List.isEmpty_cons, Bool.false_eq_true, if_false]
      cases i with
      | zero => simp
      | succ j =>
        simp only [List.getD_cons_succ]
        refine Eq.trans (ih _ ?_ j (by simpa using Nat.lt_of_succ_lt_succ hi)) ?_
        · intro k hk
          have := hcond (k + 1) (by simpa using Nat.succ_lt_succ hk)
          simp only []
          push_cast at this ⊢
          linarith
        · simp only []
          push_cast
          ring_nf


/-- Hold-stage output shape: while the block stays inside the hold, every
sample's smoothing target is the peak attenuation. -/
theorem applyHold_out (off sf : Real) (buf : List Real) :
    ∀ env : WorkletVolumeEnvelope,
      (∀ i : Nat, i < buf.length → env.currentSampleTime + i < env.holdEnd) →
      ∀ i : Nat, i < buf.length →
        (WorkletVolumeEnvelope.applyHold env off sf buf).2.getD i 0 =
          buf.getD i 0 * decibelAttenuationToGain
            (envTargetIter env.currentAttenuationDb (fun _ => env.attenuation + off) sf
              (i + 1)) := by
  induction buf with
  | nil => intro env _ i hi; exact absurd hi (by simp)
  | cons x rest ih =>
    intro env hcond i hi
    have h0 : env.currentSampleTime < env.holdEnd := by
      have := hcond 0 (by simp)
      simpa using this
    rw [WorkletVolumeEnvelope.applyHold, if_pos h0]
    rcases rest with _ | ⟨y, rest2⟩
    · have hz : i = 0 := by simpa using hi
      subst hz
      simp [WorkletVolumeEnvelope.getInterpolatedGain, envTargetIter]
    · simp only [WorkletVolumeEnvelope.getInterpolatedGain, List.isEmpty_cons,
        Bool.false_eq_true, if_false]
      cases i with
      | zero => simp [envTargetIter]
      | succ j =>
        simp only [List.getD_cons_succ]
        refine Eq.trans (ih _ ?_ j (by simpa using Nat.lt_of_succ_lt_succ hi)) ?_
        · intro k hk
          have := hcond (k + 1) (by simpa using Nat.succ_lt_succ hk)
          dsimp only
          push_cast at this ⊢
          linarith
        · dsimp only
          rw [envTargetIter_const_shift]

/-- Sustain-stage output shape: every sample's smoothing target is the
sustain attenuation. -/
theorem applySustain_out (off sf : Real) (buf : List Real) :
    ∀ env : WorkletVolumeEnvelope,
      ∀ i : Nat, i < buf.length →
        (WorkletVolumeEnvelope.applySustain env off sf buf).2.getD i 0 =
          buf.getD i 0 * decibelAttenuationToGain
            (envTargetIter env.currentAttenuationDb (fun _ => env.sustainDb + off) sf
              (i + 1)) := by
  induction buf with
  | nil => intro env i hi; exact absurd hi (by simp)
  | cons x rest ih =>
    intro env i hi
    rw [WorkletVolumeEnvelope.applySustain]
    rcases rest with _ | ⟨y, rest2⟩
    · have hz : i = 0 := by simpa using hi
      subst hz
      simp [WorkletVolumeEnvelope.getInterpolatedGain, envTargetIter]
    · simp only [WorkletVolumeEnvelope.getInterpolatedGain, List.isEmpty_cons,
        Bool.false_eq_true, if_false]
      cases i with
      | zero => simp [envTargetIter]
      | succ j =>
        simp only [List.getD_cons_succ]
        refine Eq.trans (ih _ j (by simpa using Nat.lt_of_succ_lt_succ hi)) ?_
        dsimp only
        rw [envTargetIter_const_shift]


/-- Decay-stage output shape: while the block stays inside the decay, the
sample at offset i is smoothed toward the linear dB interpolation between
the attenuation and sustainDb evaluated at clock t0 + 2i + 1. -/
theorem applyDecay_out (off sf : Real) (buf : List Real) :
    ∀ env : WorkletVolumeEnvelope,
      (∀ i : Nat, i < buf.length → env.currentSampleTime + 2 * i < env.decayEnd) →
      ∀ i : Nat, i < buf.length →
        (WorkletVolumeEnvelope.applyDecay env off sf buf).2.getD i 0 =
          buf.getD i 0 * decibelAttenuationToGain
            (envTargetIter env.currentAttenuationDb
              (decayTargetDb env.decayEnd env.decayDuration env.sustainDb
                env.attenuation off env.currentSampleTime) sf (i + 1)) := by
  induction buf with
  | nil => intro env _ i hi; exact absurd hi (by simp)
  | cons x rest ih =>
    intro env hcond i hi
    have h0 : env.currentSampleTime < env.decayEnd := by
      have := hcond 0 (by simp)
      simpa using this
    rw [WorkletVolumeEnvelope.applyDecay, if_pos h0]
    rcases rest with _ | ⟨y, rest2⟩
    · have hz : i = 0 := by simpa using hi
      subst hz
      simp [WorkletVolumeEnvelope.getInterpolatedGain, envTargetIter, decayTargetDb]
    · simp only [WorkletVolumeEnvelope.getInterpolatedGain, List.isEmpty_cons,
        Bool.false_eq_true, if_false]
      cases i with
      | zero => simp [envTargetIter, decayTargetDb]
      | succ j =>
        simp only [List.getD_cons_succ]
        refine Eq.trans (ih _ ?_ j (by simpa using Nat.lt_of_succ_lt_succ hi)) ?_
        · intro k hk
          have := hcond (k + 1) (by simpa using Nat.succ_lt_succ hk)
          dsimp only
          push_cast at this ⊢
          linarith
        · dsimp only
          rw [show decayTargetDb env.decayEnd env.decayDuration env.sustainDb
              env.attenuation off (env.currentSampleTime + 1 + 1) =
              fun k => decayTargetDb env.decayEnd env.decayDuration env.sustainDb
                env.attenuation off env.currentSampleTime (k + 1) from
            funext fun k => by
              simp only [decayTargetDb]
              push_cast
              ring]
          rw [show env.currentAttenuationDb +
              ((1 - (env.decayEnd - (env.currentSampleTime + 1)) / env.decayDuration) *
                  (env.sustainDb - env.attenuation) + env.attenuation + off -
                env.currentAttenuationDb) * sf =
              env.currentAttenuationDb +
                (decayTargetDb env.decayEnd env.decayDuration env.sustainDb
                    env.attenuation off env.currentSampleTime 0 -
                  env.currentAttenuationDb) * sf from by
            simp [decayTargetDb]]
          rw [envTargetIter_shift]


/-- C4: with no centibel offset, while a block stays inside one stage of a
non-releasing voice: in attack each written sample is scaled by the linear
gain ramp times the peak gain dB-to-gain(attenuation); in hold every
sample's smoothing target is the peak attenuation; in decay the target
ramps linearly in dB from the attenuation toward sustainDb as the clock
advances; in sustain the target holds at sustainDb. -/
theorem c4_stage_shapes (v : WorkletVoice) (buf : List Real) (sf : Real)
    (hrel : v.isInRelease = false) :
    (v.volumeEnvelope.state = 1 →
      (∀ i : Nat, i < buf.length →
        v.volumeEnvelope.currentSampleTime + i < v.volumeEnvelope.attackEnd) →
      ∀ i : Nat, i < buf.length →
        (WorkletVolumeEnvelope.apply v buf 0 sf).2.getD i 0 =
          buf.getD i 0 *
            ((1 - (v.volumeEnvelope.attackEnd -
                  (v.volumeEnvelope.currentSampleTime + i)) /
                v.volumeEnvelope.attackDuration) *
              decibelAttenuationToGain v.volumeEnvelope.attenuation)) ∧
    (v.volumeEnvelope.state = 2 →
      (∀ i : Nat, i < buf.length →
        v.volumeEnvelope.currentSampleTime + i < v.volumeEnvelope.holdEnd) →
      ∀ i : Nat, i < buf.length →
        (WorkletVolumeEnvelope.apply v buf 0 sf).2.getD i 0 =
          buf.getD i 0 * decibelAttenuationToGain
            (envTargetIter v.volumeEnvelope.currentAttenuationDb
              (fun _ => v.volumeEnvelope.attenuation) sf (i + 1))) ∧
    (v.volumeEnvelope.state = 3 →
      (∀ i : Nat, i < buf.length →
        v.volumeEnvelope.currentSampleTime + 2 * i < v.volumeEnvelope.decayEnd) →
      ∀ i : Nat, i < buf.length →
        (WorkletVolumeEnvelope.apply v buf 0 sf).2.getD i 0 =
          buf.getD i 0 * decibelAttenuationToGain
            (envTargetIter v.volumeEnvelope.currentAttenuationDb
              (decayTargetDb v.volumeEnvelope.decayEnd v.volumeEnvelope.decayDuration
                v.volumeEnvelope.sustainDb v.volumeEnvelope.attenuation 0
                v.volumeEnvelope.currentSampleTime) sf (i + 1))) ∧
    (v.volumeEnvelope.state = 4 →
      ∀ i : Nat, i < buf.length →
        (WorkletVolumeEnvelope.apply v buf 0 sf).2.getD i 0 =
          buf.getD i 0 * decibelAttenuationToGain
            (envTargetIter v.volumeEnvelope.currentAttenuationDb
              (fun _ => v.volumeEnvelope.sustainDb) sf (i + 1))) := by
  have hz : (0 : Real) / 10 = 0 := by norm_num
  refine ⟨fun hs hc i hi => ?_, fun hs hc i hi => ?_, fun hs hc i hi => ?_,
    fun hs i hi => ?_⟩ <;>
    simp only [WorkletVolumeEnvelope.apply, WorkletVolumeEnvelope.applyStages, hrel,
      Bool.false_eq_true, if_false, hs, hz]
  · refine Eq.trans (applyAttack_out 0 sf buf v.volumeEnvelope hc i hi) ?_
    rw [add_zero]
  · refine Eq.trans (applyHold_out 0 sf buf v.volumeEnvelope hc i hi) ?_
    rw [show (fun _ : Nat => v.volumeEnvelope.attenuation + (0 : Real)) =
        fun _ : Nat => v.volumeEnvelope.attenuation from funext fun _ => add_zero _]
  · exact applyDecay_out 0 sf buf v.volumeEnvelope hc i hi
  · refine Eq.trans (applySustain_out 0 sf buf v.volumeEnvelope i hi) ?_
    rw [show (fun _ : Nat => v.volumeEnvelope.sustainDb + (0 : Real)) =
        fun _ : Nat => v.volumeEnvelope.sustainDb from funext fun _ => add_zero _]

/-- C4 witness: one sample into a two-sample attack the gain factor is
exactly half the peak gain 10^0 = 1. -/
theorem c4_stage_shapes_witness :
    (WorkletVolumeEnvelope.apply cv4 [1, 1] 0 0).2.getD 1 0 = 1 / 2 := by
  have hcond : ∀ i : Nat, i < ([1, 1] : List Real).length →
      cv4.volumeEnvelope.currentSampleTime + i < cv4.volumeEnvelope.attackEnd := by
    intro i hi
    have hi2 : (i : Real) < 2 := by exact_mod_cast hi
    simp only [cv4, baseEnv]
    linarith
  have h := (c4_stage_shapes cv4 [1, 1] 0 rfl).1 rfl hcond 1 (by norm_num)
  rw [h]
  norm_num [cv4, baseEnv, decibelAttenuationToGain, Real.rpow_zero]

end SpessaSynth
